import Mathlib

/-!
Verification development for the `arbres` tree-inventory normalization
pipeline (`scripts/unify_arbres.py`, `scripts/import_arbres.py`).

The Python code is shallowly embedded: a CSV row becomes an association
list from column name to an optional string cell (`none` models a
missing/NaN cell), numeric cells are parsed into `Rat`, and the two
entry points become pure functions over an abstract file system.
-/

set_option autoImplicit false

namespace Arbres

/-! ## Python string primitives

These model the Python string operations the scripts rely on:
`str.strip`, `str.lower`, `str.split(",")`, `str.replace(",", ".")`,
membership `"," in s`, and the `float` constructor restricted to plain
decimal/scientific literals (the forms occurring in CSV cells; the
exotic `float` inputs `inf`, `nan` and `_` digit separators do not
occur in this data and are not modelled).  All of them are written as
structural recursion over the character list so that concrete
evaluations reduce in the kernel.
-/

/-- Whitespace as stripped by Python `str.strip` (ASCII subset). -/
def isPySpace (c : Char) : Bool :=
  c = ' ' || c = '\t' || c = '\n' || c = '\r' || c = '\x0b' || c = '\x0c'

/-- Python `s.strip()`. -/
def pyStrip (s : String) : String :=
  String.mk (((s.data.dropWhile isPySpace).reverse.dropWhile isPySpace).reverse)

/-- Python `s.lower()` (ASCII letters; the columns and flag values compared
by the scripts are ASCII, accented characters are left unchanged exactly
as they already appear in the candidate lists). -/
def pyLower (s : String) : String :=
  String.mk (s.data.map Char.toLower)

/-- Split a character list on commas, keeping empty chunks, like
Python `val.split(",")`. -/
def splitCommaChars : List Char → List (List Char)
  | [] => [[]]
  | c :: rest =>
    let r := splitCommaChars rest
    if c = ',' then [] :: r
    else
      match r with
      | h :: t => (c :: h) :: t
      | [] => [[c]]

/-- Python `val.split(",")`. -/
def pySplitComma (s : String) : List String :=
  (splitCommaChars s.data).map String.mk

/-- Python `"," in s`. -/
def hasComma (s : String) : Bool :=
  s.data.contains ','

/-- Python `s.replace(",", ".")` (the pattern is a single character, so
the replacement is a character map). -/
def replaceCommaDot (s : String) : String :=
  String.mk (s.data.map fun c => if c = ',' then '.' else c)

/-- Numeric value of a digit string, most significant first. -/
def natOfDigits (cs : List Char) : Nat :=
  cs.foldl (fun n c => n * 10 + (c.toNat - 48)) 0

/-- Split a character list at the first character satisfying `p`:
returns the prefix and, when a split character was found, the suffix
after it. -/
def splitFirst (p : Char → Bool) : List Char → List Char × Option (List Char)
  | [] => ([], none)
  | c :: rest =>
    if p c then ([], some rest)
    else
      let r := splitFirst p rest
      (c :: r.1, r.2)

/-- Parse the mantissa of a Python float literal: digits with at most
one decimal point and at least one digit overall.  Returns the digit
value together with the number of fractional digits. -/
def parseMantissa? (cs : List Char) : Option (Nat × Nat) :=
  let r := splitFirst (fun c => c = '.') cs
  match r.2 with
  | none =>
    if r.1 ≠ [] ∧ r.1.all Char.isDigit then some (natOfDigits r.1, 0)
    else none
  | some fp =>
    if r.1.all Char.isDigit ∧ fp.all Char.isDigit ∧ (r.1 ≠ [] ∨ fp ≠ []) then
      some (natOfDigits (r.1 ++ fp), fp.length)
    else none

/-- Parse the exponent part of a Python float literal (after `e`/`E`):
optional sign then at least one digit. -/
def parseExp? (cs : List Char) : Option Int :=
  let sr : Int × List Char :=
    match cs with
    | '-' :: r => (-1, r)
    | '+' :: r => (1, r)
    | _ => (1, cs)
  if sr.2 ≠ [] ∧ sr.2.all Char.isDigit then some (sr.1 * (natOfDigits sr.2 : Int))
  else none

/-- The rational value `±mant · 10 ^ (e - fracLen)` of a parsed float
literal, assembled with integer arithmetic and a single `mkRat`. -/
def ratOfParts (neg : Bool) (mant fracLen : Nat) (e : Int) : Rat :=
  let n : Int := if neg then -(mant : Int) else (mant : Int)
  match e with
  | Int.ofNat k => mkRat (n * ((10 : Nat) ^ k : Nat)) ((10 : Nat) ^ fracLen)
  | Int.negSucc k => mkRat n ((10 : Nat) ^ fracLen * (10 : Nat) ^ (k + 1))

/-- Python `float(s)` on decimal and scientific literals: leading and
trailing whitespace stripped, optional sign, digits with at most one
decimal point, optional `e`/`E` exponent.  Returns `none` exactly where
Python raises `ValueError` (which the scripts always catch). -/
def pyFloat? (s : String) : Option Rat :=
  let cs := (pyStrip s).data
  let sr : Bool × List Char :=
    match cs with
    | '-' :: r => (true, r)
    | '+' :: r => (false, r)
    | _ => (false, cs)
  let me := splitFirst (fun c => c = 'e' || c = 'E') sr.2
  match parseMantissa? me.1 with
  | none => none
  | some md =>
    match me.2 with
    | none => some (ratOfParts sr.1 md.1 md.2 0)
    | some ecs =>
      match parseExp? ecs with
      | none => none
      | some e => some (ratOfParts sr.1 md.1 md.2 e)

example : pyFloat? "305" = some 305 := by decide
example : pyFloat? "3.05" = some (mkRat 305 100) := by decide
example : pyFloat? " -2.5 " = some (mkRat (-25) 10) := by decide
example : pyFloat? "48,8566" = none := by decide
example : pyFloat? (replaceCommaDot "48,8566") = some (mkRat 488566 10000) := by decide
example : pyFloat? "abc" = none := by decide
example : pyFloat? "" = none := by decide
example : pyFloat? "1e2" = some 100 := by decide
example : pyFloat? "1.5e-2" = some (mkRat 15 1000) := by decide
example : pyFloat? ".5" = some (mkRat 5 10) := by decide
example : pyFloat? "." = none := by decide

/-! ## Rows and cells

A CSV row (a pandas `Series`) is an association list from column name
to cell.  A cell of `none` models a missing value (`NaN`), for which
`pd.notna` is false; every present value is kept as the string pandas
would hand to `str(...)`.
-/

/-- One row: ordered association list of column name to optional cell. -/
def Row : Type := List (String × Option String)

instance : DecidableEq Row :=
  inferInstanceAs (DecidableEq (List (String × Option String)))

instance : Membership (String × Option String) Row :=
  inferInstanceAs (Membership (String × Option String)
    (List (String × Option String)))

/-- Lookup of a column in a row.  The outer `none` means the column is
absent (Python `c in row` false / `row.get(c)` is `None`), an inner
`none` means the cell holds `NaN`. -/
def rowGet (row : Row) (c : String) : Option (Option String) :=
  (List.find? (fun p => p.1 = c) row).map Prod.snd

/-- The cell value of column `c` when it is present and non-null
(`c in row and pd.notna(row[c])`), `none` otherwise. -/
def cellVal (row : Row) (c : String) : Option String :=
  match rowGet row c with
  | some (some v) => some v
  | _ => none

/-! ## `guess_lat_lon` (unify_arbres.py, lines 13-57) -/

/-- Candidate columns holding a combined "lat, lon" string. -/
def combinedCols : List String :=
  ["geo_point_2d", "geo_point", "geopoint", "coordonnees", "coordinates"]

/-- Candidate columns for a separate latitude. -/
def latCols : List String := ["lat", "latitude", "y_lat"]

/-- Candidate columns for a separate longitude. -/
def lonCols : List String := ["lon", "lng", "longitude", "x_lon"]

/-- The range disambiguation applied to the two numeric components of a
combined coordinate string (unify_arbres.py, lines 30-33): keep the
order when `a` is a plausible latitude and `b` a plausible longitude,
swap when the roles fit the other way around, otherwise give up on
this column (control falls through, no `return` is executed). -/
def disambiguate (a b : Rat) : Option (Rat × Rat) :=
  if -90 ≤ a ∧ a ≤ 90 ∧ -180 ≤ b ∧ b ≤ 180 then some (a, b)
  else if -90 ≤ b ∧ b ≤ 90 ∧ -180 ≤ a ∧ a ≤ 180 then some (b, a)
  else none

/-- Parsing of the two leading parts of a combined coordinate string:
both must parse as floats (a `ValueError` on either falls through,
modelled by `none`), then the pair is disambiguated. -/
def parsePair (p0 p1 : String) : Option (Rat × Rat) :=
  match pyFloat? p0, pyFloat? p1 with
  | some a, some b => disambiguate a b
  | _, _ => none

/-- Processing of one combined-coordinate cell (unify_arbres.py, lines
21-35): strip, require a comma, split on commas, strip the parts,
require at least two parts, then parse and disambiguate the first
two. -/
def tryCombined (v : String) : Option (Rat × Rat) :=
  let val := pyStrip v
  if hasComma val then
    match (pySplitComma val).map pyStrip with
    | p0 :: p1 :: _ => parsePair p0 p1
    | _ => none
  else none

/-- First candidate combined-coordinate column that yields a pair
(unify_arbres.py, lines 19-35).  A present non-null cell that fails to
parse or disambiguate does not stop the scan. -/
def guessCombined (row : Row) : List String → Option (Rat × Rat)
  | [] => none
  | c :: cs =>
    match cellVal row c with
    | some v =>
      match tryCombined v with
      | some p => some p
      | none => guessCombined row cs
    | none => guessCombined row cs

/-- First candidate separate-coordinate column whose non-null cell
parses as a float (unify_arbres.py, lines 42-55).  Note: no decimal
comma handling here, `float(row[c])` is applied to the raw cell. -/
def firstSeparate (row : Row) : List String → Option Rat
  | [] => none
  | c :: cs =>
    match cellVal row c with
    | some v =>
      match pyFloat? v with
      | some x => some x
      | none => firstSeparate row cs
    | none => firstSeparate row cs

/-- `guess_lat_lon` (unify_arbres.py, lines 13-57): try the combined
columns first and return their pair on success, otherwise fall back to
separate latitude and longitude columns (each may independently be
`none`). -/
def guess_lat_lon (row : Row) : Option Rat × Option Rat :=
  match guessCombined row combinedCols with
  | some p => (some p.1, some p.2)
  | none => (firstSeparate row latCols, firstSeparate row lonCols)

example :
    guess_lat_lon [("geo_point_2d", some "48.8566, 2.3522")] =
      (some (mkRat 488566 10000), some (mkRat 23522 10000)) := by decide
example :
    guess_lat_lon [("geo_point_2d", some "2.3522, 48.8566")] =
      (some (mkRat 23522 10000), some (mkRat 488566 10000)) := by decide
example :
    guess_lat_lon [("geo_point_2d", some "100.5, 48.8566")] =
      (some (mkRat 488566 10000), some (mkRat 1005 10)) := by decide
example :
    guess_lat_lon [("lat", some "1000"), ("lon", some "300")] =
      (some 1000, some 300) := by decide
example : guess_lat_lon [("lat", some "48,8566")] = (none, none) := by decide

/-! ## `normalize_columns` and `to_common_format` (unify_arbres.py, lines 60-163) -/

/-- A tabular input (a pandas `DataFrame`): its column names and its
rows.  Each row is expected to carry the table's columns as keys. -/
structure Table where
  cols : List String
  rows : List Row

/-- `str(c).strip().lower()` applied to a column name. -/
def normKey (c : String) : String := pyLower (pyStrip c)

/-- Column renaming of `normalize_columns` applied to one row. -/
def normalizeRow (row : Row) : Row :=
  row.map fun p => (normKey p.1, p.2)

/-- `normalize_columns` (unify_arbres.py, lines 60-63): every column
name is stripped and lower-cased. -/
def normalize_columns (t : Table) : Table :=
  ⟨t.cols.map normKey, t.rows.map normalizeRow⟩

/-- Candidate columns for `commune`. -/
def possible_city : List String := ["commune", "ville", "arrondissement", "localite"]

/-- Candidate columns for `adresse`. -/
def possible_addr : List String :=
  ["adresse", "address", "lieu", "libellefrancais", "libelléfrancais"]

/-- Candidate columns for `espece`. -/
def possible_species : List String :=
  ["espece", "espèce", "species", "libellefrancais", "libelléfrancais",
   "genre", "variete", "variété"]

/-- Candidate columns for `id_source`. -/
def possible_id : List String :=
  ["id", "objectid", "gid", "identifiant", "id_arbre", "idbase"]

/-- Candidate columns for `hauteur_m`. -/
def hauteurCols : List String :=
  ["hauteur", "hauteur_m", "hauteur(en m)", "hauteur_metre", "hauteurmetre"]

/-- Candidate columns for `circonference_cm`. -/
def circonferenceCols : List String :=
  ["circonference", "circonférence", "circonference_cm", "circonférence_cm"]

/-- Candidate columns for `remarquable`. -/
def remarquableCols : List String :=
  ["remarquable", "est_remarquable", "classement", "statut"]

/-- Affirmative flag values recognised by the `remarquable` field
mapping (unify_arbres.py, line 150). -/
def affirmative : List String := ["1", "true", "oui", "yes", "vrai"]

/-- First candidate column holding a present, non-null value, as in the
`id_source` / `commune` / `adresse` / `remarquable` loops: the `break`
fires at the first candidate with `c in df.columns and
pd.notna(row.get(c))`.  Candidate names are written lower-case in the
script, so the `c = c.lower()` step is the identity on them. -/
def firstPresent (row : Row) : List String → Option String
  | [] => none
  | c :: cs =>
    match cellVal row c with
    | some v => some v
    | none => firstPresent row cs

/-- First candidate column whose present non-null value parses as a
float after `str(...).replace(",", ".")`, as in the `hauteur_m` and
`circonference_cm` loops: a `ValueError` is swallowed and the scan
continues with the next candidate. -/
def firstNumeric (row : Row) : List String → Option Rat
  | [] => none
  | c :: cs =>
    match cellVal row c with
    | some v =>
      match pyFloat? (replaceCommaDot v) with
      | some x => some x
      | none => firstNumeric row cs
    | none => firstNumeric row cs

/-- Accumulation of the `espece` parts (unify_arbres.py, lines 116-122):
each present non-null candidate is stripped and appended when non-empty
and not already present. -/
def speciesParts (row : Row) : List String :=
  possible_species.foldl
    (fun parts c =>
      match cellVal row c with
      | some v =>
        let val := pyStrip v
        if val ≠ "" ∧ val ∉ parts then parts ++ [val] else parts
      | none => parts)
    []

/-- The canonical record built by `to_common_format` for one row. -/
structure TreeRecord where
  source : String
  id_source : Option String
  commune : Option String
  adresse : Option String
  espece : Option String
  hauteur_m : Option Rat
  circonference_cm : Option Rat
  remarquable : Option Bool
  geo_lat : Option Rat
  geo_lon : Option Rat
  raw : Row
  deriving DecidableEq

/-- The body of the `for _, row in df.iterrows()` loop of
`to_common_format` (unify_arbres.py, lines 80-161), applied to a row of
the already column-normalized frame. -/
def buildRecord (source : String) (row : Row) : TreeRecord :=
  { source := source
    id_source := firstPresent row possible_id
    commune := firstPresent row possible_city
    adresse := firstPresent row possible_addr
    espece :=
      match speciesParts row with
      | [] => none
      | parts => some (String.intercalate " / " (parts.take 3))
    hauteur_m := firstNumeric row hauteurCols
    circonference_cm := firstNumeric row circonferenceCols
    remarquable :=
      (firstPresent row remarquableCols).map fun v =>
        affirmative.contains (pyLower (pyStrip v))
    geo_lat := (guess_lat_lon row).1
    geo_lon := (guess_lat_lon row).2
    raw := row }

/-- `to_common_format` (unify_arbres.py, lines 66-163): normalize the
columns, then map every row to a canonical record, in order. -/
def to_common_format (t : Table) (source : String) : List TreeRecord :=
  (normalize_columns t).rows.map (buildRecord source)

/-- Per-row view of `to_common_format`: normalization happens first,
then the record is built. -/
def toRecord (source : String) (row : Row) : TreeRecord :=
  buildRecord source (normalizeRow row)

theorem to_common_format_eq_map (t : Table) (source : String) :
    to_common_format t source = t.rows.map (toRecord source) := by
  simp [to_common_format, normalize_columns, toRecord, List.map_map]

/-! ## The Normalizer entry point (unify_arbres.py, lines 166-194) -/

/-- Flag values retained by the Paris pre-filter (unify_arbres.py,
line 183) — note: four values, not the five of `affirmative`. -/
def filterAffirmative : List String := ["1", "true", "oui", "yes"]

/-- `str(...)` of a cell as pandas `astype(str)` produces it: a `NaN`
cell becomes the string `"nan"`. -/
def cellAsPyStr (row : Row) (c : String) : String :=
  match rowGet row c with
  | some (some v) => v
  | _ => "nan"

/-- The row predicate of the Paris pre-filter:
`astype(str).str.lower().isin(["1", "true", "oui", "yes"])`. -/
def parisKeep (row : Row) : Bool :=
  filterAffirmative.contains (pyLower (cellAsPyStr row "remarquable"))

/-- The Paris pre-filter (unify_arbres.py, lines 180-183): normalize the
columns into `tmp`; when `tmp` has a `remarquable` column, keep only the
rows whose (lower-cased, stringified) flag is in `filterAffirmative`,
otherwise leave the frame untouched. -/
def paris_filter (t : Table) : Table :=
  let tmp := normalize_columns t
  if "remarquable" ∈ tmp.cols then ⟨tmp.cols, tmp.rows.filter parisKeep⟩
  else t

/-- Path of the Paris source file. -/
def parisPath : String := "data-raw/les-arbres.csv"

/-- Path of the Hauts-de-Seine source file. -/
def hdsPath : String :=
  "data-raw/arbres-remarquables-du-territoire-des-hauts-de-seine-hors-proprietes-privees.csv"

/-- Path of the interchange file. -/
def dataPath : String := "data/arbres.json"

/-- `main` of unify_arbres.py over an abstract file system mapping a
path to the table it holds (`none` when the file does not exist).  Both
existence checks run before any processing; a missing file raises
`FileNotFoundError` (the `error` case) and nothing is written.  On
success the output is the Paris records (pre-filtered) followed by the
Hauts-de-Seine records. -/
def unify_main (fs : String → Option Table) : Except String (List TreeRecord) :=
  match fs parisPath with
  | none => Except.error ("Fichier manquant: " ++ parisPath)
  | some dfParis =>
    match fs hdsPath with
    | none => Except.error ("Fichier manquant: " ++ hdsPath)
    | some dfHds =>
      Except.ok (to_common_format (paris_filter dfParis) "paris" ++
        to_common_format dfHds "hauts-de-seine")

/-! ## The Loader entry point (import_arbres.py, lines 15-28) -/

/-- `main` of import_arbres.py: given the interchange file contents (or
`none` when absent) and the current collection state, return the
outcome together with the new collection state.  The existence check
precedes `delete_many({})`, so a missing file leaves the collection
untouched; otherwise the collection is cleared and the file's records
are inserted, so the final state is exactly the file contents. -/
def import_main (fs : String → Option (List TreeRecord))
    (collection : List TreeRecord) : Except String Unit × List TreeRecord :=
  match fs dataPath with
  | none => (Except.error ("FileNotFoundError: " ++ dataPath), collection)
  | some arbres => (Except.ok (), arbres)

/-! ## Characterization lemmas

The candidate scans written as loops with `break` in the script are
related to their specification-side reading: the head of the list of
values contributed by the candidates, in priority order.
-/

/-- The value a candidate contributes to a numeric field: its present
non-null cell parsed as a float after the decimal-comma replacement. -/
def numVal (row : Row) (c : String) : Option Rat :=
  (cellVal row c).bind fun v => pyFloat? (replaceCommaDot v)

theorem firstPresent_eq_head (row : Row) (cands : List String) :
    firstPresent row cands = (cands.filterMap (cellVal row)).head? := by
  induction cands with
  | nil => rfl
  | cons c cs ih =>
    cases h : cellVal row c <;>
      simp [firstPresent, h, List.filterMap_cons, ih]

theorem firstNumeric_eq_head (row : Row) (cands : List String) :
    firstNumeric row cands = (cands.filterMap (numVal row)).head? := by
  induction cands with
  | nil => rfl
  | cons c cs ih =>
    cases h : cellVal row c with
    | none => simp [firstNumeric, h, List.filterMap_cons, numVal, ih]
    | some v =>
      cases hp : pyFloat? (replaceCommaDot v) with
      | none => simp [firstNumeric, h, hp, List.filterMap_cons, numVal, ih]
      | some x => simp [firstNumeric, h, hp, List.filterMap_cons, numVal]

theorem disambiguate_range (a b x y : Rat)
    (h : disambiguate a b = some (x, y)) :
    -90 ≤ x ∧ x ≤ 90 ∧ -180 ≤ y ∧ y ≤ 180 := by
  unfold disambiguate at h
  split_ifs at h with h1 h2
  · obtain ⟨rfl, rfl⟩ : a = x ∧ b = y := by
      simpa [Prod.ext_iff] using h
    exact h1
  · obtain ⟨rfl, rfl⟩ : b = x ∧ a = y := by
      simpa [Prod.ext_iff] using h
    exact h2

theorem parsePair_range (p0 p1 : String) (x y : Rat)
    (h : parsePair p0 p1 = some (x, y)) :
    -90 ≤ x ∧ x ≤ 90 ∧ -180 ≤ y ∧ y ≤ 180 := by
  cases hp0 : pyFloat? p0 with
  | none => simp [parsePair, hp0] at h
  | some a =>
    cases hp1 : pyFloat? p1 with
    | none => simp [parsePair, hp0, hp1] at h
    | some b =>
      exact disambiguate_range a b x y (by simpa [parsePair, hp0, hp1] using h)

theorem tryCombined_range (v : String) (x y : Rat)
    (h : tryCombined v = some (x, y)) :
    -90 ≤ x ∧ x ≤ 90 ∧ -180 ≤ y ∧ y ≤ 180 := by
  simp only [tryCombined] at h
  split_ifs at h with hc
  · cases hm : (pySplitComma (pyStrip v)).map pyStrip with
    | nil => rw [hm] at h; simp at h
    | cons p0 rest =>
      cases rest with
      | nil => rw [hm] at h; simp at h
      | cons p1 t => rw [hm] at h; exact parsePair_range p0 p1 x y h

theorem guessCombined_range (row : Row) (cols : List String) (x y : Rat)
    (h : guessCombined row cols = some (x, y)) :
    -90 ≤ x ∧ x ≤ 90 ∧ -180 ≤ y ∧ y ≤ 180 := by
  induction cols with
  | nil => exact absurd h (by simp [guessCombined])
  | cons c cs ih =>
    cases hcv : cellVal row c with
    | none =>
      refine ih ?_
      simpa [guessCombined, hcv] using h
    | some v =>
      cases htc : tryCombined v with
      | none =>
        refine ih ?_
        simpa [guessCombined, hcv, htc] using h
      | some p =>
        have hp : p = (x, y) := by
          simpa [guessCombined, hcv, htc] using h
        exact tryCombined_range v x y (hp ▸ htc)

/-! ## Claims -/

/-- C1, counterexample: a girth cell of `305` is emitted as `305`, not
as the claimed `3.05` — `to_common_format` applies no centimetre-to-
metre division (and no rounding) to the `circonference_cm` field. -/
theorem C1_counterexample :
    (toRecord "paris" [("circonference", some "305")]).circonference_cm =
        some 305 ∧
      (305 : Rat) ≠ mkRat 305 100 := by
  decide

/-- C1 (amended): for every row whose girth candidate column parses to
a numeric value `v`, the emitted record's `circonference_cm` field is
exactly `v`, unchanged — no unit conversion and no rounding; input
`305` yields `305.0` and input `3.05` yields `3.05`. -/
theorem C1_girth_unchanged (row : Row) (src : String) (v : Rat)
    (h : (circonferenceCols.filterMap (numVal (normalizeRow row))).head? =
      some v) :
    (toRecord src row).circonference_cm = some v := by
  simp [toRecord, buildRecord, firstNumeric_eq_head, h]

/-- C1, witness: the amended statement evaluated on a girth cell of
`305`, which is emitted unchanged. -/
theorem C1_witness :
    (toRecord "paris" [("circonference", some "305")]).circonference_cm =
      some 305 :=
  C1_girth_unchanged [("circonference", some "305")] "paris" 305 (by decide)

/-- C2, counterexample: on the combined input "2.3522, 48.8566" the
parser keeps the order — `2.3522` lies inside `[-90, 90]` and `48.8566`
inside `[-180, 180]`, so the first branch fires and no swap happens;
the output is `lat = 2.3522, lon = 48.8566`, not the claimed
`lat = 48.8566, lon = 2.3522`. -/
theorem C2_counterexample :
    guess_lat_lon [("geo_point_2d", some "2.3522, 48.8566")] =
        (some (mkRat 23522 10000), some (mkRat 488566 10000)) ∧
      mkRat 23522 10000 ≠ mkRat 488566 10000 := by
  decide

/-- C2 (amended): for a combined pair parsing to `(a, b)`, the parser
assigns `lat = a, lon = b` whenever `a ∈ [-90, 90]` and
`b ∈ [-180, 180]`; only otherwise, when `b ∈ [-90, 90]` and
`a ∈ [-180, 180]`, the pair is swapped; when neither condition holds
the combined column yields nothing.  In particular
"48.8566, 2.3522" yields `{lat: 48.8566, lon: 2.3522}` while
"2.3522, 48.8566" yields `{lat: 2.3522, lon: 48.8566}` (no swap). -/
theorem C2_order_heuristic (a b : Rat) :
    ((-90 ≤ a ∧ a ≤ 90 ∧ -180 ≤ b ∧ b ≤ 180) →
      disambiguate a b = some (a, b)) ∧
    (¬(-90 ≤ a ∧ a ≤ 90 ∧ -180 ≤ b ∧ b ≤ 180) →
      (-90 ≤ b ∧ b ≤ 90 ∧ -180 ≤ a ∧ a ≤ 180) →
      disambiguate a b = some (b, a)) ∧
    (¬(-90 ≤ a ∧ a ≤ 90 ∧ -180 ≤ b ∧ b ≤ 180) →
      ¬(-90 ≤ b ∧ b ≤ 90 ∧ -180 ≤ a ∧ a ≤ 180) →
      disambiguate a b = none) ∧
    guess_lat_lon [("geo_point_2d", some "48.8566, 2.3522")] =
      (some (mkRat 488566 10000), some (mkRat 23522 10000)) := by
  refine ⟨fun h1 => ?_, fun h1 h2 => ?_, fun h1 h2 => ?_, by decide⟩
  · simp [disambiguate, h1]
  · simp [disambiguate, h1, h2]
  · simp [disambiguate, h1, h2]

/-- C2, witness: the amended statement applied to the pair
`(2.3522, 48.8566)` — the first branch applies, so the order is kept. -/
theorem C2_witness :
    disambiguate (mkRat 23522 10000) (mkRat 488566 10000) =
      some (mkRat 23522 10000, mkRat 488566 10000) :=
  (C2_order_heuristic (mkRat 23522 10000) (mkRat 488566 10000)).1 (by decide)

/-- C3, counterexample: a row with separate columns `lat = "1000"` and
`lon = "300"` is emitted with `geo.lat = 1000 ∉ [-90, 90]` and
`geo.lon = 300 ∉ [-180, 180]` — the separate-column path performs no
range check. -/
theorem C3_counterexample :
    (toRecord "hauts-de-seine"
        [("lat", some "1000"), ("lon", some "300")]).geo_lat = some 1000 ∧
    (toRecord "hauts-de-seine"
        [("lat", some "1000"), ("lon", some "300")]).geo_lon = some 300 ∧
    ¬((1000 : Rat) ≤ 90) ∧ ¬((300 : Rat) ≤ 180) := by
  decide

/-- C3 (amended): the range invariant holds for coordinates obtained
from a combined coordinate column — whenever the combined path yields
`(a, b)`, the emitted record carries `lat = a ∈ [-90, 90]` and
`lon = b ∈ [-180, 180]`; coordinates taken from separate `lat`/`lon`
columns are emitted without any range check. -/
theorem C3_combined_range (row : Row) (src : String) (a b : Rat)
    (h : guessCombined (normalizeRow row) combinedCols = some (a, b)) :
    (toRecord src row).geo_lat = some a ∧
    (toRecord src row).geo_lon = some b ∧
    -90 ≤ a ∧ a ≤ 90 ∧ -180 ≤ b ∧ b ≤ 180 := by
  refine ⟨?_, ?_, guessCombined_range (normalizeRow row) combinedCols a b h⟩ <;>
    simp [toRecord, buildRecord, guess_lat_lon, h]

/-- C3, witness: the amended statement evaluated on a combined
"48.8566, 2.3522" cell. -/
theorem C3_witness :
    (toRecord "paris" [("geo_point_2d", some "48.8566, 2.3522")]).geo_lat =
        some (mkRat 488566 10000) ∧
    (toRecord "paris" [("geo_point_2d", some "48.8566, 2.3522")]).geo_lon =
        some (mkRat 23522 10000) ∧
    -90 ≤ mkRat 488566 10000 ∧ mkRat 488566 10000 ≤ 90 ∧
    -180 ≤ mkRat 23522 10000 ∧ mkRat 23522 10000 ≤ 180 :=
  C3_combined_range [("geo_point_2d", some "48.8566, 2.3522")] "paris"
    (mkRat 488566 10000) (mkRat 23522 10000) (by decide)

/-- C4, counterexample: the Paris pre-filter keeps only
`{"1", "true", "oui", "yes"}` (unify_arbres.py, line 183) — `"vrai"`
is not in that list, although the claim counts it among the retained
values, so a row flagged `"vrai"` is dropped. -/
theorem C4_counterexample :
    (paris_filter ⟨["remarquable"], [[("remarquable", some "vrai")]]⟩).rows =
        [] ∧
      "vrai" ∈ (["oui", "true", "1", "yes", "vrai"] : List String) := by
  decide

/-- C4 (amended): when the normalized Paris frame has a `remarquable`
column, exactly those rows whose stringified, lower-cased flag value is
in `{"oui", "true", "1", "yes"}` — without `"vrai"` — are retained;
when the column is absent the frame passes through unfiltered. -/
theorem C4_filter (t : Table) (r : Row) :
    ("remarquable" ∈ (normalize_columns t).cols →
      (r ∈ (paris_filter t).rows ↔
        r ∈ (normalize_columns t).rows ∧
          pyLower (cellAsPyStr r "remarquable") ∈ filterAffirmative)) ∧
    ("remarquable" ∉ (normalize_columns t).cols → paris_filter t = t) := by
  constructor
  · intro hmem
    simp [paris_filter, hmem, parisKeep, List.mem_filter]
  · intro hmem
    simp [paris_filter, hmem]

/-- C4, witness: on a two-row Paris table, the row flagged `"OUI"` is
retained (and, by evaluation, the row flagged `"NON"` is gone). -/
theorem C4_witness :
    ([("remarquable", some "OUI")] : Row) ∈
        (paris_filter ⟨["remarquable"],
          [[("remarquable", some "OUI")],
           [("remarquable", some "NON")]]⟩).rows ∧
      (paris_filter ⟨["remarquable"],
        [[("remarquable", some "OUI")],
         [("remarquable", some "NON")]]⟩).rows.length = 1 :=
  ⟨((C4_filter ⟨["remarquable"],
        [[("remarquable", some "OUI")], [("remarquable", some "NON")]]⟩
      [("remarquable", some "OUI")]).1 (by decide)).2
    ⟨by decide, by decide⟩,
   by decide⟩

/-- C5, counterexample: for a Paris row whose only locality information
is the free text "PARIS 14E ARRDT", the emitted record carries that
text verbatim in `commune` and every other string field is null — no
field of the record holds the claimed derived code "75114"; indeed the
canonical record shape built by `to_common_format` has no locality-code
field and the script contains no arrondissement-number extraction. -/
theorem C5_counterexample :
    (toRecord "paris" [("arrondissement", some "PARIS 14E ARRDT")]).commune =
        some "PARIS 14E ARRDT" ∧
    (toRecord "paris"
        [("arrondissement", some "PARIS 14E ARRDT")]).id_source = none ∧
    (toRecord "paris" [("arrondissement", some "PARIS 14E ARRDT")]).adresse =
        none ∧
    (toRecord "paris" [("arrondissement", some "PARIS 14E ARRDT")]).espece =
        none ∧
    some "PARIS 14E ARRDT" ≠ some "75114" := by
  decide

/-- C5 (amended): no locality code is derived for any source — the
arrondissement free text is copied unchanged into the `commune` field
("PARIS 14E ARRDT" stays "PARIS 14E ARRDT", "7" stays "7", and
"BOIS DE VINCENNES" stays "BOIS DE VINCENNES"); no error is raised
either way. -/
theorem C5_arrondissement_verbatim (s : String) :
    (toRecord "paris" [("arrondissement", some s)]).commune = some s := rfl

/-- C6, counterexample: the species field does not follow the
first-candidate-wins rule — a row holding both `espece = "Quercus"` and
`genre = "Chêne"` is emitted with the concatenation
"Quercus / Chêne", not with the first candidate's value "Quercus". -/
theorem C6_counterexample :
    (toRecord "paris"
        [("espece", some "Quercus"), ("genre", some "Chêne")]).espece =
        some "Quercus / Chêne" ∧
      some "Quercus / Chêne" ≠ some "Quercus" := by
  decide

/-- C6 (amended): each canonical field except the species takes its
value from the first candidate column, in priority order, that
contributes one: for `id_source`, `commune`, `adresse` and
`remarquable` the first candidate present with a non-null value (the
flag being mapped through the affirmative-set test), for `hauteur_m`
and `circonference_cm` the first candidate whose present non-null value
parses as a number; the species field instead concatenates up to three
distinct non-empty candidate values. -/
theorem C6_first_match (row : Row) (src : String) :
    (toRecord src row).id_source =
        (possible_id.filterMap (cellVal (normalizeRow row))).head? ∧
    (toRecord src row).commune =
        (possible_city.filterMap (cellVal (normalizeRow row))).head? ∧
    (toRecord src row).adresse =
        (possible_addr.filterMap (cellVal (normalizeRow row))).head? ∧
    (toRecord src row).hauteur_m =
        (hauteurCols.filterMap (numVal (normalizeRow row))).head? ∧
    (toRecord src row).circonference_cm =
        (circonferenceCols.filterMap (numVal (normalizeRow row))).head? ∧
    (toRecord src row).remarquable =
        ((remarquableCols.filterMap (cellVal (normalizeRow row))).head?).map
          (fun v => affirmative.contains (pyLower (pyStrip v))) := by
  refine ⟨?_, ?_, ?_, ?_, ?_, ?_⟩ <;>
    simp [toRecord, buildRecord, firstPresent_eq_head, firstNumeric_eq_head]

/-- C7, counterexample: a decimal comma is not accepted for latitude —
the cell "48,8566" in a separate `lat` column leaves `geo.lat` null
(`float` is applied to the raw cell, without the comma replacement the
height and girth parsers get), although the very same string parses
fine as a height. -/
theorem C7_counterexample :
    (toRecord "x" [("lat", some "48,8566")]).geo_lat = none ∧
      (toRecord "x" [("hauteur", some "48,8566")]).hauteur_m =
        some (mkRat 488566 10000) := by
  decide

/-- C7 (amended): height and girth accept a decimal point or a decimal
comma; latitude and longitude accept only a decimal point, a decimal
comma failing the parse; any non-numeric cell leaves just that field
null, and one record is still emitted per row — no parse failure ever
raises or drops a record. -/
theorem C7_graceful (t : Table) (src s : String) (x : Rat) :
    (to_common_format t src).length = t.rows.length ∧
    (pyFloat? (replaceCommaDot s) = some x →
      (toRecord src [("hauteur", some s)]).hauteur_m = some x) ∧
    (pyFloat? (replaceCommaDot s) = none →
      (toRecord src [("hauteur", some s)]).hauteur_m = none) ∧
    (pyFloat? (replaceCommaDot s) = some x →
      (toRecord src [("circonference", some s)]).circonference_cm = some x) ∧
    (pyFloat? s = some x →
      (toRecord src [("lat", some s)]).geo_lat = some x) ∧
    (pyFloat? s = none →
      (toRecord src [("lat", some s)]).geo_lat = none) := by
  have hh : (toRecord src [("hauteur", some s)]).hauteur_m =
      match pyFloat? (replaceCommaDot s) with
      | some y => some y
      | none => none := rfl
  have hc : (toRecord src [("circonference", some s)]).circonference_cm =
      match pyFloat? (replaceCommaDot s) with
      | some y => some y
      | none => none := rfl
  have hl : (toRecord src [("lat", some s)]).geo_lat =
      match pyFloat? s with
      | some y => some y
      | none => none := rfl
  refine ⟨by simp [to_common_format, normalize_columns],
    fun h => ?_, fun h => ?_, fun h => ?_, fun h => ?_, fun h => ?_⟩
  · rw [hh, h]
  · rw [hh, h]
  · rw [hc, h]
  · rw [hl, h]
  · rw [hl, h]

/-- C7, witness: the amended statement evaluated on concrete cells — a
one-row table still yields one record, comma decimals parse for height
and girth, a non-numeric height stays null, and for latitude a decimal
point parses while a decimal comma does not. -/
theorem C7_witness :
    (to_common_format ⟨["hauteur"], [[("hauteur", some "abc")]]⟩ "x").length =
        (⟨["hauteur"], [[("hauteur", some "abc")]]⟩ : Table).rows.length ∧
    (toRecord "x" [("hauteur", some "48,8566")]).hauteur_m =
        some (mkRat 488566 10000) ∧
    (toRecord "x" [("hauteur", some "abc")]).hauteur_m = none ∧
    (toRecord "x" [("circonference", some "3,05")]).circonference_cm =
        some (mkRat 305 100) ∧
    (toRecord "x" [("lat", some "48.8566")]).geo_lat =
        some (mkRat 488566 10000) ∧
    (toRecord "x" [("lat", some "48,8566")]).geo_lat = none :=
  ⟨(C7_graceful ⟨["hauteur"], [[("hauteur", some "abc")]]⟩ "x" "" 0).1,
   (C7_graceful ⟨[], []⟩ "x" "48,8566" (mkRat 488566 10000)).2.1 (by decide),
   (C7_graceful ⟨[], []⟩ "x" "abc" 0).2.2.1 (by decide),
   (C7_graceful ⟨[], []⟩ "x" "3,05" (mkRat 305 100)).2.2.2.1 (by decide),
   (C7_graceful ⟨[], []⟩ "x" "48.8566" (mkRat 488566 10000)).2.2.2.2.1
     (by decide),
   (C7_graceful ⟨[], []⟩ "x" "48,8566" 0).2.2.2.2.2 (by decide)⟩

/-- C8: each entry point checks file existence first — a missing source
file makes the Normalizer fail with a missing-file error instead of
producing records, and a missing interchange file makes the Loader fail
with a missing-file error while the stored collection stays exactly as
it was (the check precedes the `delete_many`). -/
theorem C8_missing_file (fsN : String → Option Table)
    (fsL : String → Option (List TreeRecord)) (coll : List TreeRecord) :
    ((fsN parisPath = none ∨ fsN hdsPath = none) →
      ∃ e, unify_main fsN = Except.error e) ∧
    (fsL dataPath = none →
      (import_main fsL coll).2 = coll ∧
        ∃ e, (import_main fsL coll).1 = Except.error e) := by
  constructor
  · rintro (h | h)
    · exact ⟨"Fichier manquant: " ++ parisPath, by simp [unify_main, h]⟩
    · cases hp : fsN parisPath with
      | none =>
        exact ⟨"Fichier manquant: " ++ parisPath, by simp [unify_main, hp]⟩
      | some t =>
        exact ⟨"Fichier manquant: " ++ hdsPath, by simp [unify_main, hp, h]⟩
  · intro h
    simp [import_main, h]

/-- C8, witness: on the empty file system, the Normalizer errors out
and the Loader errors out leaving a one-record collection untouched. -/
theorem C8_witness :
    (∃ e, unify_main (fun _ => none) = Except.error e) ∧
    ((import_main (fun _ => none) []).2 = ([] : List TreeRecord) ∧
      ∃ e, (import_main (fun _ => none) []).1 = Except.error e) :=
  ⟨(C8_missing_file (fun _ => none) (fun _ => none) []).1 (Or.inl rfl),
   (C8_missing_file (fun _ => none) (fun _ => none) []).2 rfl⟩

/-- C9, counterexample: column names in `raw` are not the original
source names — the source column "Hauteur" appears in `raw` under the
lower-cased key "hauteur", and a lookup under the original name finds
nothing, because `to_common_format` iterates the column-normalized
frame. -/
theorem C9_counterexample :
    (toRecord "x" [("Hauteur", some "5")]).raw = [("hauteur", some "5")] ∧
      rowGet (toRecord "x" [("Hauteur", some "5")]).raw "Hauteur" = none ∧
      "hauteur" ≠ "Hauteur" := by
  decide

/-- C9 (amended): `raw` maps each stripped-and-lower-cased source
column name to that column's literal original value — the values are
untouched (`NaN` cells stay null), only the key is case/whitespace
normalized. -/
theorem C9_raw_normalized_keys (row : Row) (src k : String)
    (v : Option String) (h : (k, v) ∈ row) :
    (normKey k, v) ∈ (toRecord src row).raw ∧
      (toRecord src row).raw = normalizeRow row := by
  refine ⟨?_, rfl⟩
  have hr : (toRecord src row).raw = normalizeRow row := rfl
  rw [hr]
  exact List.mem_map_of_mem _ h

/-- C9, witness: the amended statement evaluated on the "Hauteur"
column. -/
theorem C9_witness :
    (normKey "Hauteur", some "5") ∈
        (toRecord "x" [("Hauteur", some "5")]).raw ∧
      (toRecord "x" [("Hauteur", some "5")]).raw =
        normalizeRow [("Hauteur", some "5")] :=
  C9_raw_normalized_keys [("Hauteur", some "5")] "x" "Hauteur" (some "5")
    (List.Mem.head _)

/-- C10: when some notable-flag candidate column is present with a
non-null value, `remarquable` is a boolean computed from the first such
value — `some true` exactly when the trimmed, lower-cased value is in
`{"1", "true", "oui", "yes", "vrai"}` and `some false` otherwise — and
`remarquable` is null exactly when no candidate contributes a value. -/
theorem C10_remarquable (row : Row) (src : String) (v : String) :
    ((remarquableCols.filterMap (cellVal (normalizeRow row))).head? =
        some v →
      (toRecord src row).remarquable =
        some (affirmative.contains (pyLower (pyStrip v)))) ∧
    ((remarquableCols.filterMap (cellVal (normalizeRow row))).head? =
        some v →
      pyLower (pyStrip v) ∉ affirmative →
      (toRecord src row).remarquable = some false) ∧
    ((∀ c ∈ remarquableCols, cellVal (normalizeRow row) c = none) →
      (toRecord src row).remarquable = none) := by
  have hbase : (toRecord src row).remarquable =
      ((remarquableCols.filterMap (cellVal (normalizeRow row))).head?).map
        (fun w => affirmative.contains (pyLower (pyStrip w))) := by
    simp [toRecord, buildRecord, firstPresent_eq_head]
  refine ⟨fun h => ?_, fun h hn => ?_, fun hall => ?_⟩
  · rw [hbase, h]; rfl
  · rw [hbase, h]
    simpa using hn
  · rw [hbase, List.filterMap_eq_nil_iff.mpr hall]
    rfl

/-- C10, witness: a `classement` cell of " NON " (to be trimmed and
lower-cased) yields `remarquable = some false`, not null. -/
theorem C10_witness :
    (toRecord "x" [("classement", some " NON ")]).remarquable = some false :=
  (C10_remarquable [("classement", some " NON ")] "x" " NON ").2.1
    (by decide) (by decide)

end Arbres
